import Mathlib

/-! Shallow embedding of the RethinkDB Python driver's Tornado transport layer
    (src/drivers/python/rethinkdb/net_tornado.py) and proofs about its response
    demultiplexer (`ConnectionInstance._reader`), teardown
    (`ConnectionInstance.close`), handshake (`ConnectionInstance.connect`),
    cursor wait logic (`TornadoCursor._try_next` / `_get_next`) and the
    deadline wrapper (`with_absolute_timeout`).

    Decoded payload values are opaque to the driver, so they are a type
    parameter `V` throughout; the collaborator hook `convert_pseudo` is a
    function parameter `cp`.  Machinery the transport calls but that lives
    outside src/ (the base `Cursor` class, `maybe_profile`, `make_error` from
    net.py, and tornado's `gen.with_timeout`) is modelled from the spec and
    marked as such. -/

namespace RethinkTornado

/-- Wire tokens are 64-bit integers; the driver never does arithmetic on them,
    so unbounded integers are a faithful model. -/
abbrev Token := Int

/-- Event-loop time (`io_loop.time()`); the driver only adds a relative timeout
    once and compares with `<`, so an integer timeline suffices. -/
abbrev Time := Int

/-- Query types used by the transport (`p.Query.QueryType`). -/
inductive QueryType where
  | START
  | CONTINUE
  | STOP
  | NOREPLY_WAIT
deriving DecidableEq

/-- Response types (`p.Response.ResponseType`); the last three are the error
    variants that fall into `_reader`'s final `else` branch. -/
inductive ResponseType where
  | SUCCESS_ATOM
  | SUCCESS_SEQUENCE
  | SUCCESS_PARTIAL
  | WAIT_COMPLETE
  | CLIENT_ERROR
  | COMPILE_ERROR
  | RUNTIME_ERROR
deriving DecidableEq

/-- A query: `{type, token, term, options}`, immutable once built. -/
structure Query (V : Type) where
  type : QueryType
  token : Token
  term : Option V
  opts : Option V
deriving DecidableEq

/-- A decoded response frame: token, response-type discriminant, the decoded
    data array, and optional profiling metadata. -/
structure Response (V : Type) where
  token : Token
  type : ResponseType
  data : List V
  profile : Option V
deriving DecidableEq

/-- The error values the transport produces.  `queryError res q` is the
    collaborator call `res.make_error(query)`, modelled from the spec:
    `make_error(response, query) -> error` builds the concrete error from
    exactly the response and the original query, so we record both. -/
inductive Err (V : Type) where
  | rqlDriverError (msg : String)
  | rqlTimeoutError
  | stopIteration
  | queryError (res : Response V) (q : Query V)
deriving DecidableEq

/-- What a pending request's completion handle can be resolved with:
    a decoded atom, the cursor registered under a token, Python `None`
    (WAIT_COMPLETE), or a profiled wrapper around one of those. -/
inductive QueryResult (V : Type) where
  | atom (v : V)
  | cursorRef (token : Token)
  | noValue
  | profiled (value : QueryResult V) (profile : V)
deriving DecidableEq

variable {V : Type}

/-- Modelled from the spec: `maybe_profile(value, response)` (net.py, not under
    src/) attaches profiling metadata to the result if the response carries it,
    and otherwise returns the result unchanged. -/
def maybe_profile (r : QueryResult V) (res : Response V) : QueryResult V :=
  match res.profile with
  | some p => .profiled r p
  | none => r

/-- The base Cursor's tri-state error field.  In the Python source,
    `self.error is None` means the cursor is still live (`open_`),
    `self.error == False` means it ended with no error (`exhausted`),
    and anything else is a stored terminal error (`failed`). -/
inductive CursorErr (V : Type) where
  | open_
  | exhausted
  | failed (e : Err V)
deriving DecidableEq

/-- The state of one cursor: its originating query, the buffered ordered
    sequence of values, and the tri-state error field. -/
structure CursorState (V : Type) where
  query : Query V
  items : List V
  error : CursorErr V
deriving DecidableEq

/-- Modelled from the spec (section 4.4): the base Cursor's `extend` (net.py,
    not under src/) appends the rows of `response.data` to the buffer in
    order; a SUCCESS_SEQUENCE batch marks the cursor exhausted after this
    batch, while SUCCESS_PARTIAL leaves it open for continuation. -/
def cursorExtend (cur : CursorState V) (res : Response V) : CursorState V :=
  { cur with
    items := cur.items ++ res.data
    error := if res.type = .SUCCESS_SEQUENCE then .exhausted else cur.error }

/-- The mutable state of a `ConnectionInstance`: the `_closing` flag, the
    Pending-Request Table `_user_queries` (token to query; each entry's
    completion handle is identified by its token in the effect trace), and the
    cursor table `_cursor_cache`.  Dictionaries are association lists with
    unique keys. -/
structure ConnState (V : Type) where
  closing : Bool
  user_queries : List (Token × Query V)
  cursor_cache : List (Token × CursorState V)
deriving DecidableEq

variable {α : Type}

/-- Dictionary lookup on an association list. -/
def alookup (t : Token) : List (Token × α) → Option α
  | [] => none
  | (k, v) :: rest => if k = t then some v else alookup t rest

/-- Dictionary deletion (`del d[t]`). -/
def aerase (t : Token) : List (Token × α) → List (Token × α)
  | [] => []
  | (k, v) :: rest => if k = t then aerase t rest else (k, v) :: aerase t rest

/-- Dictionary insertion or replacement (`d[t] = v`). -/
def aupdate (t : Token) (v : α) : List (Token × α) → List (Token × α)
  | [] => [(t, v)]
  | (k, w) :: rest => if k = t then (t, v) :: rest else (k, w) :: aupdate t v rest

/-- Observable effects of one transition, in program order.  Completion
    handles are identified by the token they are registered under. -/
inductive Eff (V : Type) where
  | setResult (token : Token) (r : QueryResult V)
  | setException (token : Token) (e : Err V)
  | signalNewData (token : Token)
  | cursorError (token : Token) (msg : String)
  | setClosing
  | clearTables
  | sendQuery (q : Query V)
  | closeStream
  | closeCalled (noreply_wait : Bool) (token : Option Token)
  | raiseDriverError (msg : String)
  | startReader
  | returnParent
deriving DecidableEq

/-- The token whose table entry or completion handle an effect touches. -/
def Eff.target : Eff V → Option Token
  | .setResult t _ => some t
  | .setException t _ => some t
  | .signalNewData t => some t
  | .cursorError t _ => some t
  | _ => none

/-- Tests whether an effect fails a pending request's completion handle. -/
def Eff.isSetException : Eff V → Bool
  | .setException _ _ => true
  | _ => false

/-- Tests whether an effect delivers a terminal error to a cursor. -/
def Eff.isCursorError : Eff V → Bool
  | .cursorError _ _ => true
  | _ => false

/-- Tests whether an effect sends a query on the wire. -/
def Eff.isSendQuery : Eff V → Bool
  | .sendQuery _ => true
  | _ => false

/-- `ConnectionInstance.close(noreply_wait, token, exc_info)` (lines 124-150).
    `exc_info` is modelled as the `str()` of the exception being handled when
    the Python flag is set.  The reason string is built exactly as in the
    source: the literal `"Connection is closed (%s)."` string-concatenated
    with the exception text.  Every live cursor receives `_error(reason)`,
    every pending handle is failed with `RqlDriverError(reason)`, both tables
    are cleared, then (only if `noreply_wait`) a NOREPLY_WAIT query is sent
    via `run_query(noreply, False)`, which registers it as a new pending
    request; finally the stream is closed.

    `closeMsg` is the reason string of lines 127-131: note the source
    string-concatenates `str(ex)` after the literal `"(%s)"` text instead of
    interpolating it. -/
def closeMsg (exc_info : Option String) : String :=
  match exc_info with
  | some exStr => "Connection is closed (%s)." ++ exStr
  | none => "Connection is closed."

def closeFn (st : ConnState V) (noreply_wait : Bool) (token : Option Token)
    (exc_info : Option String) : ConnState V × List (Eff V) :=
  let err_message := closeMsg exc_info
  let cursorEffs := st.cursor_cache.map fun kv => (Eff.cursorError kv.1 err_message : Eff V)
  let queryEffs := st.user_queries.map fun kv => (Eff.setException kv.1 (.rqlDriverError err_message) : Eff V)
  let cleared : ConnState V := { closing := true, user_queries := [], cursor_cache := [] }
  if noreply_wait then
    let nq : Query V := ⟨.NOREPLY_WAIT, token.getD 0, none, none⟩
    ({ cleared with user_queries := [(nq.token, nq)] },
     Eff.setClosing :: cursorEffs ++ queryEffs ++ [Eff.clearTables, Eff.sendQuery nq, Eff.closeStream])
  else
    (cleared,
     Eff.setClosing :: cursorEffs ++ queryEffs ++ [Eff.clearTables, Eff.closeStream])

/-- The Python exceptions that can escape the routing code inside `_reader`'s
    `try` block: `res.data[0]` on an empty list, and the explicit
    `RqlDriverError("Unexpected response received.")`. -/
inductive PyExc where
  | indexError
  | unexpectedResponse
deriving DecidableEq

/-- `str()` of the escaped exception, as interpolated by `close`'s reason. -/
def PyExc.str : PyExc → String
  | .indexError => "list index out of range"
  | .unexpectedResponse => "Unexpected response received."

/-- The routing of one decoded frame by `ConnectionInstance._reader`
    (lines 172-194), inside the `try` block: first the cursor table, then the
    Pending-Request Table (resolving by response type and only then deleting
    the entry), else — when not closing — the fatal protocol-violation raise;
    when closing, the frame is dropped. -/
def readerRoute (cp : V → Query V → V) (st : ConnState V) (res : Response V) :
    Except PyExc (ConnState V × List (Eff V)) :=
  match alookup res.token st.cursor_cache with
  | some cursor =>
      .ok ({ st with cursor_cache := aupdate res.token (cursorExtend cursor res) st.cursor_cache },
           [Eff.signalNewData res.token])
  | none =>
      match alookup res.token st.user_queries with
      | some query =>
          match res.type with
          | .SUCCESS_ATOM =>
              match res.data with
              | [] => .error .indexError
              | d :: _ =>
                  .ok ({ st with user_queries := aerase res.token st.user_queries },
                       [Eff.setResult res.token (maybe_profile (.atom (cp d query)) res)])
          | .SUCCESS_SEQUENCE | .SUCCESS_PARTIAL =>
              let cursor := cursorExtend ⟨query, [], .open_⟩ res
              .ok ({ st with
                       cursor_cache := aupdate res.token cursor st.cursor_cache,
                       user_queries := aerase res.token st.user_queries },
                   [Eff.signalNewData res.token,
                    Eff.setResult res.token (maybe_profile (.cursorRef res.token) res)])
          | .WAIT_COMPLETE =>
              .ok ({ st with user_queries := aerase res.token st.user_queries },
                   [Eff.setResult res.token .noValue])
          | _ =>
              .ok ({ st with user_queries := aerase res.token st.user_queries },
                   [Eff.setException res.token (.queryError res query)])
      | none =>
          if st.closing then .ok (st, [])
          else .error .unexpectedResponse

/-- One full demultiplexer step on one frame, including `_reader`'s
    `except` handler (lines 195-197): an escaped exception triggers
    `close(False, None, exc_info=True)` unless the instance is already
    closing, in which case the exception is swallowed. -/
def readerStep (cp : V → Query V → V) (st : ConnState V) (res : Response V) :
    ConnState V × List (Eff V) :=
  match readerRoute cp st res with
  | .ok out => out
  | .error exc =>
      if st.closing then (st, [])
      else
        let out := closeFn st false none (some exc.str)
        (out.1, Eff.closeCalled false none :: out.2)

/-- `decodeUTF(response[:-1]).split(chr 10)[0]` (line 110): drop the trailing
    byte (the NUL terminator included by `read_until`), then take the text
    before the first line feed. -/
def handshakeMessage (response : String) : String :=
  String.mk ((response.data.dropLast).takeWhile fun c => c ≠ '\n')

/-- The handshake-failure error text of line 114. -/
def serverDroppedMsg (message : String) : String :=
  "Server dropped connection with message: \"" ++ message ++ "\""

/-- The tables as initialized by `ConnectionInstance.__init__`: not closing,
    both dictionaries empty. -/
def initState (V : Type) : ConnState V := ⟨false, [], []⟩

/-- The tail of `ConnectionInstance.connect` (lines 110-119), after the
    handshake response bytes have been read: compute the first line; on any
    value other than the literal `SUCCESS`, call `self.close(False, None)` and
    then raise the DriverError; on success, start the one reader task and
    return the owning parent connection. -/
def connectFinish (st : ConnState V) (response : String) : ConnState V × List (Eff V) :=
  let message := handshakeMessage response
  if message = "SUCCESS" then
    (st, [Eff.startReader, Eff.returnParent])
  else
    let out := closeFn st false none none
    (out.1, Eff.closeCalled false none :: out.2 ++ [Eff.raiseDriverError (serverDroppedMsg message)])

deriving instance DecidableEq for Except

/-- The outcome of `TornadoCursor._try_next`: the possibly-resolved result
    future, the remaining buffer, whether a callback on the `new_response`
    future was registered, and the deadline of a registered timeout callback,
    if any. -/
structure TryNextResult (V : Type) where
  result : Option (Except (Err V) V)
  items : List V
  armNewResponse : Bool
  armTimeout : Option Time
deriving DecidableEq

/-- `TornadoCursor._try_next(result_future, deadline)` (lines 55-71), as a
    function of the cursor's buffer and error state, the result future
    (`none` while running), the deadline argument and the current loop time.
    A non-running future makes the whole call a no-op; an empty buffer
    resolves by the error tri-state or by deadline expiry, or else arms the
    new-data callback (which will re-invoke with deadline `none`) and, when a
    deadline is set, a timeout callback carrying the same deadline; a
    non-empty buffer pops and converts the first item. -/
def tryNext (cp : V → Query V → V) (cur : CursorState V)
    (result_future : Option (Except (Err V) V)) (deadline : Option Time)
    (now : Time) : TryNextResult V :=
  match result_future with
  | some r => ⟨some r, cur.items, false, none⟩
  | none =>
      match cur.items with
      | [] =>
          match cur.error with
          | .exhausted => ⟨some (.error .stopIteration), [], false, none⟩
          | .failed e => ⟨some (.error e), [], false, none⟩
          | .open_ =>
              match deadline with
              | some d =>
                  if d < now then ⟨some (.error .rqlTimeoutError), [], false, none⟩
                  else ⟨none, [], true, some d⟩
              | none => ⟨none, [], true, none⟩
      | x :: rest => ⟨some (.ok (cp x cur.query)), rest, false, none⟩

/-- `TornadoCursor._get_next(timeout)` (lines 47-53): the absolute deadline is
    computed exactly once from the relative timeout, then `_try_next` runs on
    a fresh running future.  (`_maybe_fetch_batch` only issues a CONTINUE
    request to the server and does not change the local buffer.)  Returns the
    `_try_next` outcome together with the computed deadline. -/
def getNext (cp : V → Query V → V) (cur : CursorState V) (timeout : Option Time)
    (now : Time) : TryNextResult V × Option Time :=
  let deadline := timeout.map fun t => now + t
  (tryNext cp cur none deadline now, deadline)

/-- Failures observable through the deadline wrapper: an exception of the
    wrapped operation itself, tornado's `gen.TimeoutError`, or the driver's
    `RqlTimeoutError`. -/
inductive TErr (E : Type) where
  | op (e : E)
  | genTimeout
  | rqlTimeout
deriving DecidableEq

variable {E A : Type}

/-- Modelled from the spec: tornado's `gen.with_timeout(deadline, generator)`
    (external library) raises `gen.TimeoutError` when the deadline elapses
    before the generator finishes, and otherwise yields the generator's own
    result or failure.  `deadlineFirst` records which happened first. -/
def gen_with_timeout (deadlineFirst : Bool) (g : Except E A) : Except (TErr E) A :=
  if deadlineFirst then .error .genTimeout else g.mapError .op

/-- `with_absolute_timeout(deadline, generator, io_loop)` (lines 25-34): with
    no deadline, a plain pass-through await of the generator; with a deadline,
    the race via `gen.with_timeout`, catching exactly `gen.TimeoutError` and
    re-raising it as `RqlTimeoutError`. -/
def with_absolute_timeout (deadline : Option Time) (deadlineFirst : Bool)
    (g : Except E A) : Except (TErr E) A :=
  match deadline with
  | none => g.mapError .op
  | some _ =>
      match gen_with_timeout deadlineFirst g with
      | .error .genTimeout => .error .rqlTimeout
      | r => r

/-! Association-list dictionary lemmas. -/

theorem alookup_aupdate_self (t : Token) (v : α) (l : List (Token × α)) :
    alookup t (aupdate t v l) = some v := by
  induction l with
  | nil => simp [aupdate, alookup]
  | cons hd tl ih =>
      obtain ⟨k, w⟩ := hd
      by_cases hk : k = t
      · simp [aupdate, hk, alookup]
      · simp [aupdate, hk, alookup, ih]

theorem alookup_aupdate_ne (t t' : Token) (h : t' ≠ t) (v : α) (l : List (Token × α)) :
    alookup t' (aupdate t v l) = alookup t' l := by
  induction l with
  | nil => simp [aupdate, alookup, Ne.symm h]
  | cons hd tl ih =>
      obtain ⟨k, w⟩ := hd
      by_cases hk : k = t
      · subst hk
        simp [aupdate, alookup, Ne.symm h]
      · simp [aupdate, hk, alookup, ih]

theorem alookup_aerase_self (t : Token) (l : List (Token × α)) :
    alookup t (aerase t l) = none := by
  induction l with
  | nil => simp [aerase, alookup]
  | cons hd tl ih =>
      obtain ⟨k, w⟩ := hd
      by_cases hk : k = t
      · simp [aerase, hk, ih]
      · simp [aerase, hk, alookup, ih]

theorem alookup_aerase_ne (t t' : Token) (h : t' ≠ t) (l : List (Token × α)) :
    alookup t' (aerase t l) = alookup t' l := by
  induction l with
  | nil => simp [aerase]
  | cons hd tl ih =>
      obtain ⟨k, w⟩ := hd
      by_cases hk : k = t
      · subst hk
        simp [aerase, alookup, Ne.symm h, ih]
      · simp [aerase, hk, alookup, ih]

theorem alookup_mem {t : Token} {v : α} {l : List (Token × α)} (h : alookup t l = some v) :
    (t, v) ∈ l := by
  induction l with
  | nil => simp [alookup] at h
  | cons hd tl ih =>
      obtain ⟨k, w⟩ := hd
      by_cases hk : k = t
      · subst hk
        simp [alookup] at h
        simp [h]
      · simp [alookup, hk] at h
        exact List.mem_cons_of_mem _ (ih h)

/-- Unfolding of `closeFn` in the `noreply_wait = false` case. -/
theorem closeFn_noreply_false (st : ConnState V) (tok : Option Token) (exc : Option String) :
    closeFn st false tok exc =
      ({ closing := true, user_queries := [], cursor_cache := [] },
       Eff.setClosing ::
         ((st.cursor_cache.map fun kv => (Eff.cursorError kv.1 (closeMsg exc) : Eff V)) ++
          (st.user_queries.map fun kv =>
            (Eff.setException kv.1 (.rqlDriverError (closeMsg exc)) : Eff V)) ++
          [Eff.clearTables, Eff.closeStream])) := rfl

/-- Unfolding of `closeFn` in the `noreply_wait = true` case. -/
theorem closeFn_noreply_true (st : ConnState V) (tok : Option Token) (exc : Option String) :
    closeFn st true tok exc =
      ({ closing := true,
         user_queries := [(tok.getD 0, ⟨.NOREPLY_WAIT, tok.getD 0, none, none⟩)],
         cursor_cache := [] },
       Eff.setClosing ::
         ((st.cursor_cache.map fun kv => (Eff.cursorError kv.1 (closeMsg exc) : Eff V)) ++
          (st.user_queries.map fun kv =>
            (Eff.setException kv.1 (.rqlDriverError (closeMsg exc)) : Eff V)) ++
          [Eff.clearTables, Eff.sendQuery ⟨.NOREPLY_WAIT, tok.getD 0, none, none⟩,
           Eff.closeStream])) := rfl

/-- Filtering keeps a whole list all of whose elements satisfy the test. -/
theorem filter_eq_self_of_all (p : Eff V → Bool) (l : List (Eff V))
    (h : ∀ e ∈ l, p e = true) : l.filter p = l := by
  induction l with
  | nil => rfl
  | cons e l ih =>
      simp [List.filter_cons, h e (by simp),
            ih fun x hx => h x (by simp [hx])]

/-- Filtering drops a whole list none of whose elements satisfies the test. -/
theorem filter_eq_nil_of_all (p : Eff V → Bool) (l : List (Eff V))
    (h : ∀ e ∈ l, p e = false) : l.filter p = [] := by
  induction l with
  | nil => rfl
  | cons e l ih =>
      simp [List.filter_cons, h e (by simp),
            ih fun x hx => h x (by simp [hx])]

/-- Claim C8: for every operation and deadline argument, `with_absolute_timeout`
    with deadline `none` is a pass-through await, returning the operation's
    result or propagating its failure unchanged; with a deadline set it returns
    the operation's result if the operation finishes first, fails with
    `RqlTimeoutError` if the deadline elapses first, and otherwise propagates
    the operation's own failure. -/
theorem claim_C8_deadline_wrapper (df : Bool) (v : A) (e : E) (dl : Time) :
    with_absolute_timeout none df (Except.ok v : Except E A) = .ok v ∧
    with_absolute_timeout none df (Except.error e : Except E A) = .error (.op e) ∧
    with_absolute_timeout (some dl) false (Except.ok v : Except E A) = .ok v ∧
    with_absolute_timeout (some dl) false (Except.error e : Except E A) = .error (.op e) ∧
    (∀ g : Except E A, with_absolute_timeout (some dl) true g = .error .rqlTimeout) := by
  refine ⟨rfl, rfl, rfl, rfl, fun g => ?_⟩
  simp [with_absolute_timeout, gen_with_timeout]

/-- Claim C7: for every handshake response read up to the NUL terminator whose
    text before the first line terminator is not exactly `SUCCESS`, `connect`
    raises a DriverError whose message contains the server's message, the
    socket is closed, and no reader task is started; when the first line is
    exactly `SUCCESS`, `connect` starts exactly one reader task and returns
    the owning parent connection. -/
theorem claim_C7_handshake (st : ConnState V) (response : String) :
    (handshakeMessage response ≠ "SUCCESS" →
      Eff.raiseDriverError (serverDroppedMsg (handshakeMessage response)) ∈
        (connectFinish st response).2 ∧
      serverDroppedMsg (handshakeMessage response) =
        "Server dropped connection with message: \"" ++ handshakeMessage response ++ "\"" ∧
      Eff.closeStream ∈ (connectFinish st response).2 ∧
      Eff.startReader ∉ (connectFinish st response).2) ∧
    (handshakeMessage response = "SUCCESS" →
      connectFinish st response = (st, [Eff.startReader, Eff.returnParent])) := by
  constructor
  · intro h
    refine ⟨?_, rfl, ?_, ?_⟩
    · simp [connectFinish, h]
    · simp [connectFinish, h, closeFn]
    · simp [connectFinish, h, closeFn, List.mem_append, List.mem_map]
  · intro h
    simp [connectFinish, h]

/-- Claim C7 witness: the scenario of the spec, with handshake response bytes
    `"ERROR: bad proto\n\0"`, and the success case `"SUCCESS\0"`. -/
theorem claim_C7_witness :
    Eff.raiseDriverError (serverDroppedMsg "ERROR: bad proto") ∈
      (connectFinish (initState Unit) "ERROR: bad proto\n\x00").2 ∧
    Eff.startReader ∉ (connectFinish (initState Unit) "ERROR: bad proto\n\x00").2 ∧
    connectFinish (initState Unit) "SUCCESS\x00" =
      (initState Unit, [Eff.startReader, Eff.returnParent]) := by
  have hm : handshakeMessage "ERROR: bad proto\n\x00" = "ERROR: bad proto" := by decide
  have h1 := (claim_C7_handshake (initState Unit) "ERROR: bad proto\n\x00").1 (by decide)
  refine ⟨?_, ?_, (claim_C7_handshake (initState Unit) "SUCCESS\x00").2 (by decide)⟩
  · have := h1.1
    rwa [hm] at this
  · exact h1.2.2.2

/-- Claim C6 counterexample: on the handshake response `"ERROR: bad proto\n\0"`
    the failure path of `connect` does invoke the normal teardown procedure —
    it calls `self.close(False, None)`, which marks the instance closing and
    clears the pending-request and cursor tables — contradicting the claim
    that the socket is closed without invoking that path. -/
theorem claim_C6_counterexample :
    Eff.closeCalled false none ∈ (connectFinish (initState Unit) "ERROR: bad proto\n\x00").2 ∧
    Eff.clearTables ∈ (connectFinish (initState Unit) "ERROR: bad proto\n\x00").2 ∧
    Eff.setClosing ∈ (connectFinish (initState Unit) "ERROR: bad proto\n\x00").2 ∧
    (connectFinish (initState Unit) "ERROR: bad proto\n\x00").1.closing = true := by
  decide

/-- Claim C6 (amended): when `connect` observes a handshake response whose
    first line is not the literal SUCCESS marker, it invokes the normal
    teardown procedure `close(False, None)`; because the pending-request and
    cursor tables are still empty at that point, the teardown notifies no
    waiter (no completion handle is failed and no cursor receives an error),
    clears the already-empty tables, marks the instance closing, and closes
    the socket; no reader task is started. -/
theorem claim_C6_amended (st : ConnState V) (response : String)
    (hq : st.user_queries = []) (hc : st.cursor_cache = [])
    (h : handshakeMessage response ≠ "SUCCESS") :
    Eff.closeCalled false none ∈ (connectFinish st response).2 ∧
    Eff.closeStream ∈ (connectFinish st response).2 ∧
    (∀ t e, Eff.setException t e ∉ (connectFinish st response).2) ∧
    (∀ t m, Eff.cursorError t m ∉ (connectFinish st response).2) ∧
    Eff.startReader ∉ (connectFinish st response).2 ∧
    (connectFinish st response).1.closing = true := by
  refine ⟨?_, ?_, ?_, ?_, ?_, ?_⟩ <;>
    simp [connectFinish, h, closeFn, hq, hc]

/-- Claim C6 witness for the amended statement, at the concrete handshake
    response `"ERROR: bad proto\n\0"` on the freshly initialized state. -/
theorem claim_C6_witness :
    Eff.closeCalled false none ∈ (connectFinish (initState Unit) "ERROR: bad proto\n\x00").2 ∧
    (∀ t e, Eff.setException t e ∉ (connectFinish (initState Unit) "ERROR: bad proto\n\x00").2) ∧
    (connectFinish (initState Unit) "ERROR: bad proto\n\x00").1.closing = true := by
  have h := claim_C6_amended (initState Unit) "ERROR: bad proto\n\x00" rfl rfl (by decide)
  exact ⟨h.1, h.2.2.1, h.2.2.2.2.2⟩

/-- Claim C1: for every frame whose token matches a registered PendingRequest
    and no live Cursor, the demultiplexer resolves the request's completion
    handle by response type — SUCCESS_ATOM completes it with the single
    decoded value (profiling metadata attached if present); SUCCESS_SEQUENCE
    or SUCCESS_PARTIAL creates a new Cursor registered under the token, feeds
    it this first batch, and completes the handle with the Cursor itself;
    WAIT_COMPLETE completes it with no value; any error response type
    completes the handle with the error built from the response and the
    original query — and in every case the token is removed from the
    Pending-Request Table after resolution. -/
theorem claim_C1_pending_request_routing (cp : V → Query V → V) (st : ConnState V)
    (res : Response V) (query : Query V)
    (hcur : alookup res.token st.cursor_cache = none)
    (hq : alookup res.token st.user_queries = some query) :
    (∀ d rest, res.type = .SUCCESS_ATOM → res.data = d :: rest →
      readerStep cp st res =
        ({ st with user_queries := aerase res.token st.user_queries },
         [Eff.setResult res.token (maybe_profile (.atom (cp d query)) res)]) ∧
      alookup res.token (readerStep cp st res).1.user_queries = none) ∧
    ((res.type = .SUCCESS_SEQUENCE ∨ res.type = .SUCCESS_PARTIAL) →
      alookup res.token (readerStep cp st res).1.cursor_cache =
        some ⟨query, res.data,
              if res.type = .SUCCESS_SEQUENCE then CursorErr.exhausted else CursorErr.open_⟩ ∧
      Eff.setResult res.token (maybe_profile (.cursorRef res.token) res) ∈
        (readerStep cp st res).2 ∧
      alookup res.token (readerStep cp st res).1.user_queries = none) ∧
    (res.type = .WAIT_COMPLETE →
      readerStep cp st res =
        ({ st with user_queries := aerase res.token st.user_queries },
         [Eff.setResult res.token .noValue]) ∧
      alookup res.token (readerStep cp st res).1.user_queries = none) ∧
    ((res.type = .CLIENT_ERROR ∨ res.type = .COMPILE_ERROR ∨ res.type = .RUNTIME_ERROR) →
      readerStep cp st res =
        ({ st with user_queries := aerase res.token st.user_queries },
         [Eff.setException res.token (.queryError res query)]) ∧
      alookup res.token (readerStep cp st res).1.user_queries = none) := by
  refine ⟨?_, ?_, ?_, ?_⟩
  · intro d rest hty hdata
    have hstep : readerStep cp st res =
        ({ st with user_queries := aerase res.token st.user_queries },
         [Eff.setResult res.token (maybe_profile (.atom (cp d query)) res)]) := by
      simp [readerStep, readerRoute, hcur, hq, hty, hdata]
    exact ⟨hstep, by rw [hstep]; exact alookup_aerase_self _ _⟩
  · intro hty
    have hstep : readerStep cp st res =
        ({ st with
             cursor_cache :=
               aupdate res.token (cursorExtend ⟨query, [], .open_⟩ res) st.cursor_cache,
             user_queries := aerase res.token st.user_queries },
         [Eff.signalNewData res.token,
          Eff.setResult res.token (maybe_profile (.cursorRef res.token) res)]) := by
      rcases hty with hty | hty <;> simp [readerStep, readerRoute, hcur, hq, hty]
    refine ⟨?_, ?_, ?_⟩
    · rw [hstep]
      rcases hty with hty | hty <;>
        simp [alookup_aupdate_self, cursorExtend, hty]
    · rw [hstep]; simp
    · rw [hstep]; exact alookup_aerase_self _ _
  · intro hty
    have hstep : readerStep cp st res =
        ({ st with user_queries := aerase res.token st.user_queries },
         [Eff.setResult res.token .noValue]) := by
      simp [readerStep, readerRoute, hcur, hq, hty]
    exact ⟨hstep, by rw [hstep]; exact alookup_aerase_self _ _⟩
  · intro hty
    have hstep : readerStep cp st res =
        ({ st with user_queries := aerase res.token st.user_queries },
         [Eff.setException res.token (.queryError res query)]) := by
      rcases hty with hty | hty | hty <;> simp [readerStep, readerRoute, hcur, hq, hty]
    exact ⟨hstep, by rw [hstep]; exact alookup_aerase_self _ _⟩

/-- Claim C1 witness: the spec scenario of a SUCCESS_ATOM frame for a pending
    token, evaluated concretely. -/
theorem claim_C1_witness :
    readerStep (fun (v : Unit) _ => v)
        ⟨false, [(5, ⟨.START, 5, none, none⟩)], []⟩
        ⟨5, .SUCCESS_ATOM, [()], none⟩ =
      (⟨false, [], []⟩, [Eff.setResult 5 (.atom ())]) := by
  have h := (claim_C1_pending_request_routing (fun (v : Unit) _ => v)
      ⟨false, [(5, ⟨.START, 5, none, none⟩)], []⟩ ⟨5, .SUCCESS_ATOM, [()], none⟩
      ⟨.START, 5, none, none⟩ (by decide) (by decide)).1 () [] rfl rfl
  exact h.1.trans (by decide)

/-- Claim C3 counterexample: tokens 1 and 2 are distinct and both have
    outstanding pending requests, yet the frame bearing token 1 — a
    SUCCESS_ATOM whose decoded data array is empty — makes the demultiplexer
    step resolve the completion handle registered under token 2 (with the
    connection-closed error of the resulting teardown), so one step does not
    mutate only the entries keyed by the frame's own token. -/
theorem claim_C3_counterexample :
    (2 : Token) ≠ (1 : Token) ∧
    Eff.setException 2
        (.rqlDriverError "Connection is closed (%s).list index out of range") ∈
      (readerStep (fun (v : Unit) _ => v)
        ⟨false, [(1, ⟨.START, 1, none, none⟩), (2, ⟨.START, 2, none, none⟩)], []⟩
        ⟨1, .SUCCESS_ATOM, [], none⟩).2 := by
  decide

/-- Claim C3 (amended): for distinct tokens t2 ≠ t1, a demultiplexer step on a
    frame bearing t1 that completes without raising (the routing returns
    normally) produces only effects targeting t1, and leaves both the
    pending-request entry and the cursor entry registered under t2 unchanged;
    a step that raises instead tears the whole connection down, resolving
    every outstanding handle, t2's included, with the connection-closed
    error. -/
theorem claim_C3_amended (cp : V → Query V → V) (st : ConnState V) (res : Response V)
    (t2 : Token) (h2 : t2 ≠ res.token) (out : ConnState V × List (Eff V))
    (hok : readerRoute cp st res = .ok out) :
    (∀ e ∈ out.2, e.target = some res.token) ∧
    alookup t2 out.1.user_queries = alookup t2 st.user_queries ∧
    alookup t2 out.1.cursor_cache = alookup t2 st.cursor_cache ∧
    readerStep cp st res = out := by
  have hstep : readerStep cp st res = out := by
    simp [readerStep, hok]
  rcases hc : alookup res.token st.cursor_cache with _ | cursor
  · rcases hu : alookup res.token st.user_queries with _ | query
    · cases hcl : st.closing
      · simp [readerRoute, hc, hu, hcl] at hok
      · simp only [readerRoute, hc, hu, hcl, if_true] at hok
        obtain rfl := (Except.ok.inj hok).symm
        exact ⟨by simp, rfl, rfl, hstep⟩
    · rcases hty : res.type with _ | _ | _ | _ | _ | _ | _
      · rcases hd : res.data with _ | ⟨d, rest⟩
        · simp [readerRoute, hc, hu, hty, hd] at hok
        · simp only [readerRoute, hc, hu, hty, hd] at hok
          obtain rfl := (Except.ok.inj hok).symm
          exact ⟨by simp [Eff.target], alookup_aerase_ne _ _ h2 _, rfl, hstep⟩
      · simp only [readerRoute, hc, hu, hty] at hok
        obtain rfl := (Except.ok.inj hok).symm
        exact ⟨by simp [Eff.target], alookup_aerase_ne _ _ h2 _,
               alookup_aupdate_ne _ _ h2 _ _, hstep⟩
      · simp only [readerRoute, hc, hu, hty] at hok
        obtain rfl := (Except.ok.inj hok).symm
        exact ⟨by simp [Eff.target], alookup_aerase_ne _ _ h2 _,
               alookup_aupdate_ne _ _ h2 _ _, hstep⟩
      · simp only [readerRoute, hc, hu, hty] at hok
        obtain rfl := (Except.ok.inj hok).symm
        exact ⟨by simp [Eff.target], alookup_aerase_ne _ _ h2 _, rfl, hstep⟩
      · simp only [readerRoute, hc, hu, hty] at hok
        obtain rfl := (Except.ok.inj hok).symm
        exact ⟨by simp [Eff.target], alookup_aerase_ne _ _ h2 _, rfl, hstep⟩
      · simp only [readerRoute, hc, hu, hty] at hok
        obtain rfl := (Except.ok.inj hok).symm
        exact ⟨by simp [Eff.target], alookup_aerase_ne _ _ h2 _, rfl, hstep⟩
      · simp only [readerRoute, hc, hu, hty] at hok
        obtain rfl := (Except.ok.inj hok).symm
        exact ⟨by simp [Eff.target], alookup_aerase_ne _ _ h2 _, rfl, hstep⟩
  · simp only [readerRoute, hc] at hok
    obtain rfl := (Except.ok.inj hok).symm
    exact ⟨by simp [Eff.target], rfl, alookup_aupdate_ne _ _ h2 _ _, hstep⟩

/-- Claim C3 witness for the amended statement: a SUCCESS_ATOM frame for
    token 1 leaves token 2's pending entry in place. -/
theorem claim_C3_witness :
    alookup 2 (readerStep (fun (v : Unit) _ => v)
        ⟨false, [(1, ⟨.START, 1, none, none⟩), (2, ⟨.START, 2, none, none⟩)], []⟩
        ⟨1, .SUCCESS_ATOM, [()], none⟩).1.user_queries =
      some ⟨.START, 2, none, none⟩ := by
  have h := claim_C3_amended (fun (v : Unit) _ => v)
      ⟨false, [(1, ⟨.START, 1, none, none⟩), (2, ⟨.START, 2, none, none⟩)], []⟩
      ⟨1, .SUCCESS_ATOM, [()], none⟩ 2 (by decide)
      (⟨false, [(2, ⟨.START, 2, none, none⟩)], []⟩, [Eff.setResult 1 (.atom ())])
      (by decide)
  rw [h.2.2.2]
  exact h.2.1.trans (by decide)

/-- Claim C5: a frame whose token matches neither a live Cursor nor a
    PendingRequest is silently ignored when the instance is already closing;
    otherwise it raises `RqlDriverError("Unexpected response received.")`,
    tearing the whole connection down: close runs with that exception text,
    marks the instance closing, empties both tables, and resolves every
    outstanding pending request and cursor with the connection-closed
    error. -/
theorem claim_C5_unknown_token (cp : V → Query V → V) (st : ConnState V) (res : Response V)
    (hcur : alookup res.token st.cursor_cache = none)
    (hq : alookup res.token st.user_queries = none) :
    (st.closing = true → readerStep cp st res = (st, [])) ∧
    (st.closing = false →
      readerRoute cp st res = Except.error .unexpectedResponse ∧
      PyExc.str .unexpectedResponse = "Unexpected response received." ∧
      (readerStep cp st res).1.closing = true ∧
      (readerStep cp st res).1.user_queries = [] ∧
      (readerStep cp st res).1.cursor_cache = [] ∧
      Eff.closeCalled false none ∈ (readerStep cp st res).2 ∧
      (∀ t q, (t, q) ∈ st.user_queries →
        Eff.setException t
            (.rqlDriverError (closeMsg (some (PyExc.str .unexpectedResponse)))) ∈
          (readerStep cp st res).2) ∧
      (∀ t c, (t, c) ∈ st.cursor_cache →
        Eff.cursorError t (closeMsg (some (PyExc.str .unexpectedResponse))) ∈
          (readerStep cp st res).2)) := by
  constructor
  · intro hcl
    simp [readerStep, readerRoute, hcur, hq, hcl]
  · intro hcl
    have hroute : readerRoute cp st res = Except.error .unexpectedResponse := by
      simp [readerRoute, hcur, hq, hcl]
    have hstep : readerStep cp st res =
        ((closeFn st false none (some (PyExc.str .unexpectedResponse))).1,
         Eff.closeCalled false none ::
           (closeFn st false none (some (PyExc.str .unexpectedResponse))).2) := by
      simp [readerStep, hroute, hcl]
    refine ⟨hroute, rfl, ?_, ?_, ?_, ?_, ?_, ?_⟩
    · rw [hstep]; simp [closeFn]
    · rw [hstep]; simp [closeFn]
    · rw [hstep]; simp [closeFn]
    · rw [hstep]; simp
    · intro t q hm
      rw [hstep, closeFn_noreply_false]
      exact List.mem_cons_of_mem _ (List.mem_cons_of_mem _
        (List.mem_append_left _ (List.mem_append_right _
          (List.mem_map.mpr ⟨(t, q), hm, rfl⟩))))
    · intro t c hm
      rw [hstep, closeFn_noreply_false]
      exact List.mem_cons_of_mem _ (List.mem_cons_of_mem _
        (List.mem_append_left _ (List.mem_append_left _
          (List.mem_map.mpr ⟨(t, c), hm, rfl⟩))))

/-- Claim C5 witness: an unknown token 9 while one request and one cursor are
    outstanding, and the silently-ignored case while closing. -/
theorem claim_C5_witness :
    readerStep (fun (v : Unit) _ => v) ⟨true, [], []⟩ ⟨9, .SUCCESS_ATOM, [()], none⟩ =
      (⟨true, [], []⟩, []) ∧
    Eff.setException 7
        (.rqlDriverError "Connection is closed (%s).Unexpected response received.") ∈
      (readerStep (fun (v : Unit) _ => v)
        ⟨false, [(7, ⟨.START, 7, none, none⟩)],
         [(8, ⟨⟨.START, 8, none, none⟩, [], .open_⟩)]⟩
        ⟨9, .SUCCESS_ATOM, [()], none⟩).2 ∧
    Eff.cursorError 8 "Connection is closed (%s).Unexpected response received." ∈
      (readerStep (fun (v : Unit) _ => v)
        ⟨false, [(7, ⟨.START, 7, none, none⟩)],
         [(8, ⟨⟨.START, 8, none, none⟩, [], .open_⟩)]⟩
        ⟨9, .SUCCESS_ATOM, [()], none⟩).2 := by
  have h1 := (claim_C5_unknown_token (fun (v : Unit) _ => v) ⟨true, [], []⟩
      ⟨9, .SUCCESS_ATOM, [()], none⟩ (by decide) (by decide)).1 rfl
  have h2 := (claim_C5_unknown_token (fun (v : Unit) _ => v)
      ⟨false, [(7, ⟨.START, 7, none, none⟩)],
       [(8, ⟨⟨.START, 8, none, none⟩, [], .open_⟩)]⟩
      ⟨9, .SUCCESS_ATOM, [()], none⟩ (by decide) (by decide)).2 rfl
  exact ⟨h1, h2.2.2.2.2.2.2.1 7 ⟨.START, 7, none, none⟩ (by decide),
         h2.2.2.2.2.2.2.2 8 ⟨⟨.START, 8, none, none⟩, [], .open_⟩ (by decide)⟩

/-- Claim C10: a SUCCESS_ATOM response with an empty decoded data array makes
    `res.data[0]` raise inside the reader loop, so the connection is torn
    down as a whole (close with the exception's text) rather than the single
    pending request being resolved; the request's handle is then failed with
    the connection-closed error, not completed with a value. -/
theorem claim_C10_empty_atom_teardown (cp : V → Query V → V) (st : ConnState V)
    (res : Response V) (query : Query V)
    (hcl : st.closing = false)
    (hcur : alookup res.token st.cursor_cache = none)
    (hq : alookup res.token st.user_queries = some query)
    (hty : res.type = .SUCCESS_ATOM) (hdata : res.data = []) :
    readerRoute cp st res = Except.error .indexError ∧
    (readerStep cp st res).1.closing = true ∧
    (readerStep cp st res).1.user_queries = [] ∧
    Eff.closeCalled false none ∈ (readerStep cp st res).2 ∧
    Eff.setException res.token
        (.rqlDriverError (closeMsg (some (PyExc.str .indexError)))) ∈
      (readerStep cp st res).2 ∧
    (∀ r, Eff.setResult res.token r ∉ (readerStep cp st res).2) := by
  have hroute : readerRoute cp st res = Except.error .indexError := by
    simp [readerRoute, hcur, hq, hty, hdata]
  have hstep : readerStep cp st res =
      ((closeFn st false none (some (PyExc.str .indexError))).1,
       Eff.closeCalled false none ::
         (closeFn st false none (some (PyExc.str .indexError))).2) := by
    simp [readerStep, hroute, hcl]
  refine ⟨hroute, ?_, ?_, ?_, ?_, ?_⟩
  · rw [hstep]; simp [closeFn]
  · rw [hstep]; simp [closeFn]
  · rw [hstep]; simp
  · rw [hstep, closeFn_noreply_false]
    exact List.mem_cons_of_mem _ (List.mem_cons_of_mem _
      (List.mem_append_left _ (List.mem_append_right _
        (List.mem_map.mpr ⟨(res.token, query), alookup_mem hq, rfl⟩))))
  · intro r
    rw [hstep]
    simp [closeFn, List.mem_append, List.mem_map]

/-- Claim C10 witness: token 3 pending, SUCCESS_ATOM frame with empty data. -/
theorem claim_C10_witness :
    Eff.setException 3
        (.rqlDriverError "Connection is closed (%s).list index out of range") ∈
      (readerStep (fun (v : Unit) _ => v) ⟨false, [(3, ⟨.START, 3, none, none⟩)], []⟩
        ⟨3, .SUCCESS_ATOM, [], none⟩).2 ∧
    (∀ r, Eff.setResult 3 r ∉
      (readerStep (fun (v : Unit) _ => v) ⟨false, [(3, ⟨.START, 3, none, none⟩)], []⟩
        ⟨3, .SUCCESS_ATOM, [], none⟩).2) := by
  have h := claim_C10_empty_atom_teardown (fun (v : Unit) _ => v)
      ⟨false, [(3, ⟨.START, 3, none, none⟩)], []⟩ ⟨3, .SUCCESS_ATOM, [], none⟩
      ⟨.START, 3, none, none⟩ rfl (by decide) (by decide) rfl rfl
  exact ⟨h.2.2.2.2.1, h.2.2.2.2.2⟩

/-- Claim C9: for every call to close with exc_info set while an exception is
    being handled, the reason delivered to every cursor and every pending
    request is the literal text "Connection is closed (%s)." immediately
    followed by the exception's string representation — the "(%s)" placeholder
    is concatenated verbatim, never substituted. -/
theorem claim_C9_reason_concatenation (st : ConnState V) (nr : Bool)
    (tok : Option Token) (exStr : String) :
    closeMsg (some exStr) = "Connection is closed (%s)." ++ exStr ∧
    (∀ t c, (t, c) ∈ st.cursor_cache →
      Eff.cursorError t ("Connection is closed (%s)." ++ exStr) ∈
        (closeFn st nr tok (some exStr)).2) ∧
    (∀ t q, (t, q) ∈ st.user_queries →
      Eff.setException t (.rqlDriverError ("Connection is closed (%s)." ++ exStr)) ∈
        (closeFn st nr tok (some exStr)).2) ∧
    (∀ t m, Eff.cursorError t m ∈ (closeFn st nr tok (some exStr)).2 →
      m = "Connection is closed (%s)." ++ exStr) ∧
    (∀ t e, Eff.setException t e ∈ (closeFn st nr tok (some exStr)).2 →
      e = .rqlDriverError ("Connection is closed (%s)." ++ exStr)) := by
  refine ⟨rfl, ?_, ?_, ?_, ?_⟩
  · intro t c hm
    cases nr
    · rw [closeFn_noreply_false]
      exact List.mem_cons_of_mem _ (List.mem_append_left _
        (List.mem_append_left _ (List.mem_map.mpr ⟨(t, c), hm, rfl⟩)))
    · rw [closeFn_noreply_true]
      exact List.mem_cons_of_mem _ (List.mem_append_left _
        (List.mem_append_left _ (List.mem_map.mpr ⟨(t, c), hm, rfl⟩)))
  · intro t q hm
    cases nr
    · rw [closeFn_noreply_false]
      exact List.mem_cons_of_mem _ (List.mem_append_left _
        (List.mem_append_right _ (List.mem_map.mpr ⟨(t, q), hm, rfl⟩)))
    · rw [closeFn_noreply_true]
      exact List.mem_cons_of_mem _ (List.mem_append_left _
        (List.mem_append_right _ (List.mem_map.mpr ⟨(t, q), hm, rfl⟩)))
  · intro t m hm
    cases nr <;>
      [rw [closeFn_noreply_false] at hm; rw [closeFn_noreply_true] at hm] <;>
      simp only [List.mem_cons, List.mem_append, List.mem_map,
                 List.not_mem_nil, or_false] at hm <;>
      rcases hm with h | (⟨a, _, heq⟩ | ⟨a, _, heq⟩) | h <;>
      first
        | (exfalso; simp at h)
        | (exfalso; exact Eff.noConfusion heq)
        | exact ((Eff.cursorError.inj heq).2).symm
  · intro t e hm
    cases nr <;>
      [rw [closeFn_noreply_false] at hm; rw [closeFn_noreply_true] at hm] <;>
      simp only [List.mem_cons, List.mem_append, List.mem_map,
                 List.not_mem_nil, or_false] at hm <;>
      rcases hm with h | (⟨a, _, heq⟩ | ⟨a, _, heq⟩) | h <;>
      first
        | (exfalso; simp at h)
        | (exfalso; exact Eff.noConfusion heq)
        | exact ((Eff.setException.inj heq).2).symm

/-- Claim C9 witness: one cursor and one pending request, closed while
    handling an exception whose text is "boom". -/
theorem claim_C9_witness :
    Eff.cursorError 4 "Connection is closed (%s).boom" ∈
      (closeFn (⟨false, [(3, ⟨.START, 3, none, none⟩)],
        [(4, ⟨⟨.START, 4, none, none⟩, [], .open_⟩)]⟩ : ConnState Unit)
        false none (some "boom")).2 ∧
    Eff.setException 3 (.rqlDriverError "Connection is closed (%s).boom") ∈
      (closeFn (⟨false, [(3, ⟨.START, 3, none, none⟩)],
        [(4, ⟨⟨.START, 4, none, none⟩, [], .open_⟩)]⟩ : ConnState Unit)
        false none (some "boom")).2 := by
  have h := claim_C9_reason_concatenation
      (⟨false, [(3, ⟨.START, 3, none, none⟩)],
        [(4, ⟨⟨.START, 4, none, none⟩, [], .open_⟩)]⟩ : ConnState Unit)
      false none "boom"
  exact ⟨h.2.1 4 ⟨⟨.START, 4, none, none⟩, [], .open_⟩ (by decide),
         h.2.2.1 3 ⟨.START, 3, none, none⟩ (by decide)⟩

/-- Claim C2: for every connection state with N registered PendingRequests and
    M live Cursors, close fails all N pending handles with a DriverError
    carrying the connection-closed reason (exactly N such effects) and all M
    cursors with a terminal error carrying that reason (exactly M such
    effects); both tables are emptied — the trace clears them before any
    NOREPLY_WAIT request is sent, and all handle/cursor resolutions happen
    before the clear point; with `noreply_wait = false` the resulting tables
    are empty, and with `noreply_wait = true` they are empty again once the
    reader consumes the WAIT_COMPLETE response for the NOREPLY_WAIT token;
    closing again on a state with empty tables resolves no handle and no
    cursor a second time. -/
theorem claim_C2_close_resolves_all (cp : V → Query V → V) (st : ConnState V)
    (nr : Bool) (tok : Token) (exc : Option String) :
    (∀ t q, (t, q) ∈ st.user_queries →
      Eff.setException t (.rqlDriverError (closeMsg exc)) ∈
        (closeFn st nr (some tok) exc).2) ∧
    (∀ t c, (t, c) ∈ st.cursor_cache →
      Eff.cursorError t (closeMsg exc) ∈ (closeFn st nr (some tok) exc).2) ∧
    ((closeFn st nr (some tok) exc).2.filter Eff.isSetException).length =
      st.user_queries.length ∧
    ((closeFn st nr (some tok) exc).2.filter Eff.isCursorError).length =
      st.cursor_cache.length ∧
    (∃ pre post, (closeFn st nr (some tok) exc).2 = pre ++ Eff.clearTables :: post ∧
      (∀ e ∈ pre, Eff.isSendQuery e = false) ∧
      (∀ e ∈ post, Eff.isSetException e = false ∧ Eff.isCursorError e = false) ∧
      (nr = true → Eff.sendQuery ⟨.NOREPLY_WAIT, tok, none, none⟩ ∈ post) ∧
      (nr = false → ∀ q, Eff.sendQuery q ∉ pre ++ Eff.clearTables :: post)) ∧
    (nr = false → (closeFn st nr (some tok) exc).1.user_queries = [] ∧
      (closeFn st nr (some tok) exc).1.cursor_cache = []) ∧
    ((readerStep cp (closeFn st true (some tok) exc).1
        ⟨tok, .WAIT_COMPLETE, [], none⟩).1.user_queries = [] ∧
     (readerStep cp (closeFn st true (some tok) exc).1
        ⟨tok, .WAIT_COMPLETE, [], none⟩).1.cursor_cache = []) ∧
    (∀ st2 : ConnState V, st2.user_queries = [] → st2.cursor_cache = [] →
      ∀ nr2 tok2 exc2, ∀ e ∈ (closeFn st2 nr2 tok2 exc2).2,
        Eff.isSetException e = false ∧ Eff.isCursorError e = false) := by
  have hfq : ((st.user_queries.map fun kv =>
      (Eff.setException kv.1 (.rqlDriverError (closeMsg exc)) : Eff V)).filter
        Eff.isSetException) =
      st.user_queries.map fun kv =>
        (Eff.setException kv.1 (.rqlDriverError (closeMsg exc)) : Eff V) :=
    filter_eq_self_of_all _ _ (by
      intro e he
      obtain ⟨a, _, rfl⟩ := List.mem_map.mp he
      rfl)
  have hfq0 : ((st.cursor_cache.map fun kv =>
      (Eff.cursorError kv.1 (closeMsg exc) : Eff V)).filter Eff.isSetException) = [] :=
    filter_eq_nil_of_all _ _ (by
      intro e he
      obtain ⟨a, _, rfl⟩ := List.mem_map.mp he
      rfl)
  have hfc : ((st.cursor_cache.map fun kv =>
      (Eff.cursorError kv.1 (closeMsg exc) : Eff V)).filter Eff.isCursorError) =
      st.cursor_cache.map fun kv => (Eff.cursorError kv.1 (closeMsg exc) : Eff V) :=
    filter_eq_self_of_all _ _ (by
      intro e he
      obtain ⟨a, _, rfl⟩ := List.mem_map.mp he
      rfl)
  have hfc0 : ((st.user_queries.map fun kv =>
      (Eff.setException kv.1 (.rqlDriverError (closeMsg exc)) : Eff V)).filter
        Eff.isCursorError) = [] :=
    filter_eq_nil_of_all _ _ (by
      intro e he
      obtain ⟨a, _, rfl⟩ := List.mem_map.mp he
      rfl)
  refine ⟨?_, ?_, ?_, ?_, ?_, ?_, ?_, ?_⟩
  · intro t q hm
    cases nr
    · rw [closeFn_noreply_false]
      exact List.mem_cons_of_mem _ (List.mem_append_left _
        (List.mem_append_right _ (List.mem_map.mpr ⟨(t, q), hm, rfl⟩)))
    · rw [closeFn_noreply_true]
      exact List.mem_cons_of_mem _ (List.mem_append_left _
        (List.mem_append_right _ (List.mem_map.mpr ⟨(t, q), hm, rfl⟩)))
  · intro t c hm
    cases nr
    · rw [closeFn_noreply_false]
      exact List.mem_cons_of_mem _ (List.mem_append_left _
        (List.mem_append_left _ (List.mem_map.mpr ⟨(t, c), hm, rfl⟩)))
    · rw [closeFn_noreply_true]
      exact List.mem_cons_of_mem _ (List.mem_append_left _
        (List.mem_append_left _ (List.mem_map.mpr ⟨(t, c), hm, rfl⟩)))
  · cases nr <;>
      [rw [closeFn_noreply_false]; rw [closeFn_noreply_true]] <;>
      simp [List.filter_cons, List.filter_append, hfq, hfq0,
            Eff.isSetException]
  · cases nr <;>
      [rw [closeFn_noreply_false]; rw [closeFn_noreply_true]] <;>
      simp [List.filter_cons, List.filter_append, hfc, hfc0,
            Eff.isCursorError]
  · cases nr
    · refine ⟨Eff.setClosing ::
          ((st.cursor_cache.map fun kv => (Eff.cursorError kv.1 (closeMsg exc) : Eff V)) ++
           (st.user_queries.map fun kv =>
             (Eff.setException kv.1 (.rqlDriverError (closeMsg exc)) : Eff V))),
        [Eff.closeStream], ?_, ?_, ?_, ?_, ?_⟩
      · rw [closeFn_noreply_false]
        simp
      · intro e he
        rcases List.mem_cons.mp he with rfl | he
        · rfl
        · rcases List.mem_append.mp he with he | he <;>
            (obtain ⟨a, _, rfl⟩ := List.mem_map.mp he; rfl)
      · intro e he
        rcases List.mem_cons.mp he with rfl | he
        · exact ⟨rfl, rfl⟩
        · simp at he
      · intro h
        exact absurd h (by simp)
      · intro _ q hq
        rcases List.mem_append.mp hq with hq | hq
        · rcases List.mem_cons.mp hq with h | hq
          · exact Eff.noConfusion h
          · rcases List.mem_append.mp hq with hq | hq <;>
              (obtain ⟨a, _, h⟩ := List.mem_map.mp hq; exact Eff.noConfusion h)
        · rcases List.mem_cons.mp hq with h | hq
          · exact Eff.noConfusion h
          · rcases List.mem_cons.mp hq with h | hq
            · exact Eff.noConfusion h
            · simp at hq
    · refine ⟨Eff.setClosing ::
          ((st.cursor_cache.map fun kv => (Eff.cursorError kv.1 (closeMsg exc) : Eff V)) ++
           (st.user_queries.map fun kv =>
             (Eff.setException kv.1 (.rqlDriverError (closeMsg exc)) : Eff V))),
        [Eff.sendQuery ⟨.NOREPLY_WAIT, tok, none, none⟩, Eff.closeStream],
        ?_, ?_, ?_, ?_, ?_⟩
      · rw [closeFn_noreply_true]
        simp
      · intro e he
        rcases List.mem_cons.mp he with rfl | he
        · rfl
        · rcases List.mem_append.mp he with he | he <;>
            (obtain ⟨a, _, rfl⟩ := List.mem_map.mp he; rfl)
      · intro e he
        rcases List.mem_cons.mp he with rfl | he
        · exact ⟨rfl, rfl⟩
        · rcases List.mem_cons.mp he with rfl | he
          · exact ⟨rfl, rfl⟩
          · simp at he
      · intro _
        simp
      · intro h
        exact absurd h (by simp)
  · intro h
    subst h
    rw [closeFn_noreply_false]
    exact ⟨rfl, rfl⟩
  · rw [closeFn_noreply_true]
    constructor <;>
      simp [readerStep, readerRoute, alookup, aerase]
  · intro st2 hq2 hc2 nr2 tok2 exc2 e he
    cases nr2 <;>
      [rw [closeFn_noreply_false] at he; rw [closeFn_noreply_true] at he] <;>
      rw [hq2, hc2] at he <;>
      simp only [List.map_nil, List.nil_append, List.append_nil] at he <;>
      rcases List.mem_cons.mp he with rfl | he
    · exact ⟨rfl, rfl⟩
    · rcases List.mem_cons.mp he with rfl | he
      · exact ⟨rfl, rfl⟩
      · rcases List.mem_cons.mp he with rfl | he
        · exact ⟨rfl, rfl⟩
        · simp at he
    · exact ⟨rfl, rfl⟩
    · rcases List.mem_cons.mp he with rfl | he
      · exact ⟨rfl, rfl⟩
      · rcases List.mem_cons.mp he with rfl | he
        · exact ⟨rfl, rfl⟩
        · rcases List.mem_cons.mp he with rfl | he
          · exact ⟨rfl, rfl⟩
          · simp at he

/-- Claim C2 witness: one pending request (token 3) and one cursor (token 4),
    closed with `noreply_wait = false` and no exception context. -/
theorem claim_C2_witness :
    Eff.setException 3 (.rqlDriverError "Connection is closed.") ∈
      (closeFn (⟨false, [(3, ⟨.START, 3, none, none⟩)],
        [(4, ⟨⟨.START, 4, none, none⟩, [], .open_⟩)]⟩ : ConnState Unit)
        false (some 9) none).2 ∧
    Eff.cursorError 4 "Connection is closed." ∈
      (closeFn (⟨false, [(3, ⟨.START, 3, none, none⟩)],
        [(4, ⟨⟨.START, 4, none, none⟩, [], .open_⟩)]⟩ : ConnState Unit)
        false (some 9) none).2 ∧
    (closeFn (⟨false, [(3, ⟨.START, 3, none, none⟩)],
        [(4, ⟨⟨.START, 4, none, none⟩, [], .open_⟩)]⟩ : ConnState Unit)
        false (some 9) none).1.user_queries = [] := by
  have h := claim_C2_close_resolves_all (fun (v : Unit) _ => v)
      (⟨false, [(3, ⟨.START, 3, none, none⟩)],
        [(4, ⟨⟨.START, 4, none, none⟩, [], .open_⟩)]⟩ : ConnState Unit)
      false 9 none
  exact ⟨h.1 3 ⟨.START, 3, none, none⟩ (by decide),
         h.2.1 4 ⟨⟨.START, 4, none, none⟩, [], .open_⟩ (by decide),
         (h.2.2.2.2.2.1 rfl).1⟩

/-- Claim C4: on an empty buffer, `_try_next` fails the result future with the
    terminal error if one is set; with the end-of-sequence signal
    (StopIteration) if the cursor is exhausted with no error; with
    RqlTimeoutError once the absolute deadline — computed exactly once from
    the relative timeout by `_get_next` — has elapsed; and otherwise suspends,
    arming the new-data callback (which re-invokes `_try_next` with no
    deadline, so a wake that still finds the buffer empty re-arms the wait)
    and, when a deadline is set, a timeout callback carrying that same
    deadline.  An already-resolved result future is never resolved again:
    `_try_next` on a non-running future changes nothing and arms nothing, so
    new-data arrival and deadline expiry can never both resolve it. -/
theorem claim_C4_cursor_get_next (cp : V → Query V → V) (cur : CursorState V)
    (now : Time) :
    (∀ r d now2, tryNext cp cur (some r) d now2 = ⟨some r, cur.items, false, none⟩) ∧
    (∀ e, cur.items = [] → cur.error = .failed e →
      ∀ d, tryNext cp cur none d now = ⟨some (.error e), [], false, none⟩) ∧
    (cur.items = [] → cur.error = .exhausted →
      ∀ d, tryNext cp cur none d now =
        ⟨some (.error .stopIteration), [], false, none⟩) ∧
    (cur.items = [] → cur.error = .open_ →
      ∀ d, d < now → tryNext cp cur none (some d) now =
        ⟨some (.error .rqlTimeoutError), [], false, none⟩) ∧
    (cur.items = [] → cur.error = .open_ →
      ∀ d, ¬d < now → tryNext cp cur none (some d) now = ⟨none, [], true, some d⟩) ∧
    (cur.items = [] → cur.error = .open_ →
      ∀ now2, tryNext cp cur none none now2 = ⟨none, [], true, none⟩) ∧
    (∀ t, (getNext cp cur (some t) now).2 = some (now + t) ∧
      (getNext cp cur (some t) now).1 = tryNext cp cur none (some (now + t)) now) ∧
    (getNext cp cur none now).2 = none := by
  refine ⟨fun r d now2 => rfl, ?_, ?_, ?_, ?_, ?_, fun t => ⟨rfl, rfl⟩, rfl⟩
  · intro e hi he d
    cases d <;> simp [tryNext, hi, he]
  · intro hi he d
    cases d <;> simp [tryNext, hi, he]
  · intro hi he d hd
    simp [tryNext, hi, he, hd]
  · intro hi he d hd
    simp [tryNext, hi, he, hd]
  · intro hi he now2
    simp [tryNext, hi, he]

/-- Claim C4 witness: an empty open cursor times out past the deadline,
    suspends and re-arms before it, and a resolved future stays resolved. -/
theorem claim_C4_witness :
    tryNext (fun (v : Unit) _ => v) ⟨⟨.START, 1, none, none⟩, [], .open_⟩
        none (some 5) 7 = ⟨some (.error .rqlTimeoutError), [], false, none⟩ ∧
    tryNext (fun (v : Unit) _ => v) ⟨⟨.START, 1, none, none⟩, [], .open_⟩
        none (some 9) 7 = ⟨none, [], true, some 9⟩ ∧
    tryNext (fun (v : Unit) _ => v) ⟨⟨.START, 1, none, none⟩, [], .open_⟩
        (some (.error .stopIteration)) (some 5) 7 =
      ⟨some (.error .stopIteration), [], false, none⟩ ∧
    (getNext (fun (v : Unit) _ => v) ⟨⟨.START, 1, none, none⟩, [], .open_⟩
        (some 2) 7).2 = some 9 := by
  have h := claim_C4_cursor_get_next (fun (v : Unit) _ => v)
      ⟨⟨.START, 1, none, none⟩, [], .open_⟩ 7
  refine ⟨h.2.2.2.1 rfl rfl 5 (by decide), h.2.2.2.2.1 rfl rfl 9 (by decide),
          h.1 (.error .stopIteration) (some 5) 7, ?_⟩
  exact (h.2.2.2.2.2.2.1 2).1

end RethinkTornado
